import Mathlib

/-!
Shallow embedding of `src/cpanel_backup_plus.py` (cPanelToGoogleDrive).

The script triggers a cPanel full backup, sleeps for a fixed delay, locates the
backup archive in the account's home directory, uploads it to S3 or Google
Drive, purges old remote backups down to `MAX_BACKUP_FILES`, and deletes the
local archive when the upload succeeded.

External effects (HTTP calls, the local filesystem, S3/Drive SDK calls) are
modelled by explicit oracle fields of an `Env` record; each run produces a
trace of `Event`s so that temporal claims ("purge is never invoked after a
failed upload") become statements about the trace.
-/

namespace CPanelBackupPlus

/-- Python exceptions relevant to the embedded fragment.  `typeError` models the
`TypeError` raised by `os.path.exists(None)`; `apiError k` models an exception
raised by an SDK call on key/id `k`; `valueError` models `int()` rejecting a
malformed string. -/
inductive PyErr
  | typeError
  | apiError (key : String)
  | valueError
deriving DecidableEq, Repr

instance {ε α : Type} [DecidableEq ε] [DecidableEq α] : DecidableEq (Except ε α) := fun a b =>
  match a, b with
  | .ok x, .ok y =>
    if h : x = y then isTrue (by rw [h]) else isFalse (fun hc => h (Except.ok.inj hc))
  | .error x, .error y =>
    if h : x = y then isTrue (by rw [h]) else isFalse (fun hc => h (Except.error.inj hc))
  | .ok _, .error _ => isFalse (fun hc => Except.noConfusion hc)
  | .error _, .ok _ => isFalse (fun hc => Except.noConfusion hc)

/-- Observable actions of one run of the script, in order of occurrence. -/
inductive Event
  | triggerCall
  | waitDelay (seconds : Nat)
  | locateScan
  | uploadCall (path : Option String)
  | destPut (key : String)
  | destCreateFile (name : String) (mime : String)
  | purgeCall
  | destDelete (key : String)
  | localRemove (path : String)
deriving DecidableEq, Repr

/-- One entry of the S3 `list_objects_v2` response: key and last-modified
timestamp (timestamps as naturals). -/
structure S3Object where
  key : String
  lastModified : Nat
deriving DecidableEq, Repr

/-- One entry of the Drive `files().list` response: id, name, creation
timestamp. -/
structure DriveFile where
  id : String
  name : String
  createdTime : Nat
deriving DecidableEq, Repr

/-- Ordering used by `S3Handler.purge`: ascending last-modified
(`sorted(files, key=lambda x: x['LastModified'])`). -/
def s3Le (a b : S3Object) : Prop := a.lastModified ≤ b.lastModified

instance : DecidableRel s3Le := fun a b =>
  inferInstanceAs (Decidable (a.lastModified ≤ b.lastModified))

instance : IsTotal S3Object s3Le := ⟨fun a b => Nat.le_total a.lastModified b.lastModified⟩

instance : IsTrans S3Object s3Le := ⟨fun _ _ _ hab hbc => Nat.le_trans hab hbc⟩

/-- Ordering of the Drive listing requested with `orderBy="createdTime desc"`:
`driveDescLe a b` means `a` is no older than `b` (newest first). -/
def driveDescLe (a b : DriveFile) : Prop := b.createdTime ≤ a.createdTime

instance : DecidableRel driveDescLe := fun a b =>
  inferInstanceAs (Decidable (b.createdTime ≤ a.createdTime))

instance : IsTotal DriveFile driveDescLe := ⟨fun a b => Nat.le_total b.createdTime a.createdTime⟩

instance : IsTrans DriveFile driveDescLe := ⟨fun _ _ _ hab hbc => Nat.le_trans hbc hab⟩

/-- Python slice `l[:j]` for an arbitrary integer `j` (negative indices count
from the end, results clamped to the list). -/
def pyTake (j : Int) (l : List α) : List α :=
  if 0 ≤ j then l.take j.toNat else l.take (l.length - (-j).toNat)

/-- Python slice `l[i:]` for an arbitrary integer `i`. -/
def pyDrop (i : Int) (l : List α) : List α :=
  if 0 ≤ i then l.drop i.toNat else l.drop (l.length - (-i).toNat)

/-- Consumes the literal `lit` from the front of `cs` (one regex literal). -/
def chompLit : List Char → List Char → Option (List Char)
  | [], cs => some cs
  | _ :: _, [] => none
  | p :: ps, c :: cs => if c = p then chompLit ps cs else none

/-- Consumes exactly `n` decimal digits (regex `\d{n}`, ASCII digits: the
cPanel-generated names are ASCII). -/
def chompDigits : Nat → List Char → Option (List Char)
  | 0, cs => some cs
  | _ + 1, [] => none
  | n + 1, c :: cs => if c.isDigit then chompDigits n cs else none

/-- Regex fragment `\d{1,2}\.`: greedy two-digit attempt, falling back to one
digit.  Committed choice is equivalent to backtracking here because the token
after the digit block is the literal dot, which no digit can match. -/
def chompD12Dot (cs : List Char) : Option (List Char) :=
  match chompDigits 2 cs >>= chompLit ['.'] with
  | some r => some r
  | none => chompDigits 1 cs >>= chompLit ['.']

/-- Matcher for `re.compile(rf"backup-\d{1,2}\.\d{1,2}\.\d{4}_\d{2}-\d{2}-\d{2}_
<user>\.tar\.gz").match(name)` applied at the start of `name`: returns the
remaining characters on success.  `pattern.match` anchors only at the start, so
trailing characters are unconstrained. -/
def matchFrom (user cs : List Char) : Option (List Char) := do
  let r1 ← chompLit "backup-".toList cs
  let r2 ← chompD12Dot r1
  let r3 ← chompD12Dot r2
  let r4 ← chompDigits 4 r3
  let r5 ← chompLit ['_'] r4
  let r6 ← chompDigits 2 r5
  let r7 ← chompLit ['-'] r6
  let r8 ← chompDigits 2 r7
  let r9 ← chompLit ['-'] r8
  let r10 ← chompDigits 2 r9
  let r11 ← chompLit ['_'] r10
  let r12 ← chompLit user r11
  chompLit ".tar.gz".toList r12

/-- Whether `CpanelHandler.__get_backup_file`'s regex accepts directory entry
`name` for account `username` (`re.escape` makes the username a literal). -/
def backupNameMatch (username name : String) : Bool :=
  (matchFrom username.toList name.toList).isSome

/-- `CpanelHandler.__get_backup_file`: the first entry of the home directory
listing whose name matches the backup pattern, as a full path under
`/home/<username>/`; `None` when no entry matches.  `next((f for f in
backup_directory.iterdir() if regex_pattern.match(f.name)), None)`. -/
def getBackupFile (username : String) (homeDirEntries : List String) : Option String :=
  (homeDirEntries.find? (fun f => backupNameMatch username f)).map
    (fun f => "/home/" ++ username ++ "/" ++ f)

/-- Outcome of the trigger request as distinguished by
`CpanelHandler.__initiate_full_backup`'s two checks (`status_code != 200`, then
json `status != 1`).  In the source each branch only logs; the Python function
returns `None` on every path, so the caller never sees this value. -/
inductive TriggerResult
  | accepted
  | rejectedHttp (code : Nat)
  | rejectedApi (status : Int)
deriving DecidableEq, Repr

/-- `CpanelHandler.__initiate_full_backup`'s classification of the response. -/
def initiateFullBackup (httpStatus : Nat) (apiStatus : Int) : TriggerResult :=
  if httpStatus ≠ 200 then .rejectedHttp httpStatus
  else if apiStatus ≠ 1 then .rejectedApi apiStatus
  else .accepted

/-- `os.path.basename`: the part after the last slash. -/
def baseName (p : String) : String :=
  ⟨(p.data.reverse.takeWhile (fun c => c ≠ '/')).reverse⟩

/-- Oracles for one run: configuration, trigger response, local filesystem and
the destination-side state/behaviour.  `existingPaths` is the set of local
paths for which `os.path.exists` is true; `s3Objects` / `driveFiles` are the
destination listings returned during purge (after any upload of this run);
`putOk` tells whether the destination upload call succeeds (otherwise it
raises and is caught); `deleteOk` / `driveDeleteOk` tell whether a delete call
on a given key/id succeeds (otherwise it raises, uncaught in the source). -/
structure Env where
  username : String
  triggerHttpStatus : Nat
  triggerApiStatus : Int
  checkDelay : Nat
  homeDirEntries : List String
  existingPaths : List String
  keyPref : String
  putOk : Bool
  mimeGuess : String → Option String
  s3Objects : List S3Object
  deleteOk : String → Bool
  driveFiles : List DriveFile
  driveDeleteOk : String → Bool
  maxBackupFiles : Int

/-- `CpanelHandler.run_backup`: initiate (outcome logged and discarded — the
Python method returns `None` on every branch), sleep `BACKUP_CHECK_DELAY`
seconds, then locate the backup file; returns the path or `None`. -/
def runBackup (env : Env) : Option String × List Event :=
  (getBackupFile env.username env.homeDirEntries,
   [Event.triggerCall, Event.waitDelay env.checkDelay, Event.locateScan])

/-- `S3Handler.upload`.  A `none` path models Python `None`:
`os.path.exists(None)` raises `TypeError` before anything else.  A path that
does not exist is logged and reported as failure with no destination call.
Otherwise the put call is attempted; on an SDK exception the handler logs and
returns `False`. -/
def s3Upload (env : Env) (path : Option String) : Except PyErr (Bool × List Event) :=
  match path with
  | none => .error .typeError
  | some p =>
    if p ∈ env.existingPaths then
      .ok (env.putOk, [Event.destPut (env.keyPref ++ baseName p)])
    else
      .ok (false, [])

/-- MIME type used by `GDriveHandler.upload`: `mimetypes.guess_type` with
fallback `application/octet-stream`. -/
def effectiveMime (guess : String → Option String) (p : String) : String :=
  (guess p).getD "application/octet-stream"

/-- `GDriveHandler.upload`: same shape as `S3Handler.upload`; the chunked
resumable upload is one `files().create` call from the trace's viewpoint. -/
def gdriveUpload (env : Env) (path : Option String) : Except PyErr (Bool × List Event) :=
  match path with
  | none => .error .typeError
  | some p =>
    if p ∈ env.existingPaths then
      .ok (env.putOk, [Event.destCreateFile (baseName p) (effectiveMime env.mimeGuess p)])
    else
      .ok (false, [])

/-- Listing step of `S3Handler.purge`: `sorted(files, key=lambda x:
x['LastModified'])` (Python `sorted` is stable; insertion sort keyed by `≤` is
the same stable sort).  An absent `Contents` key is the empty listing. -/
def s3SortedListing (files : List S3Object) : List S3Object :=
  List.insertionSort s3Le files

/-- Selection step of `S3Handler.purge`: `existing_files[:len(existing_files)
- MAX_BACKUP_FILES]` when `len(existing_files) > MAX_BACKUP_FILES`, else
nothing. -/
def s3FilesToDelete (maxKept : Int) (files : List S3Object) : List S3Object :=
  if ((s3SortedListing files).length : Int) > maxKept then
    pyTake (((s3SortedListing files).length : Int) - maxKept) (s3SortedListing files)
  else
    []

/-- Listing returned by `files().list(..., orderBy="createdTime desc")`:
the folder's non-trashed files, newest first. -/
def gdriveListing (files : List DriveFile) : List DriveFile :=
  List.insertionSort driveDescLe files

/-- Selection step of `GDriveHandler.purge`: `existing_files
[MAX_BACKUP_FILES:]` when `len(existing_files) > MAX_BACKUP_FILES`, else
nothing; `listing` is the response list, newest first. -/
def gdriveFilesToDelete (maxKept : Int) (listing : List DriveFile) : List DriveFile :=
  if (listing.length : Int) > maxKept then pyDrop maxKept listing else []

/-- The delete loop shared by both purge bodies: each delete call is issued in
order; a raising call (oracle `false`) ends the loop — the source has no
try/except around the deletes, so the exception propagates.  Returns the keys
whose delete call was issued (the raising call included) and the error, if
any. -/
def runDeletes (ok : String → Bool) : List String → List String × Option PyErr
  | [] => ([], none)
  | k :: ks =>
    if ok k then
      let r := runDeletes ok ks
      (k :: r.1, r.2)
    else
      ([k], some (.apiError k))

/-- `S3Handler.purge`: list, sort ascending by last-modified, delete the
oldest excess one by one. -/
def s3Purge (env : Env) : List Event × Option PyErr :=
  let sel := s3FilesToDelete env.maxBackupFiles env.s3Objects
  let r := runDeletes env.deleteOk (sel.map S3Object.key)
  (Event.purgeCall :: r.1.map Event.destDelete, r.2)

/-- `GDriveHandler.purge`: list newest-first, keep the first
`MAX_BACKUP_FILES`, delete the rest by file id, in listing order. -/
def gdrivePurge (env : Env) : List Event × Option PyErr :=
  let sel := gdriveFilesToDelete env.maxBackupFiles (gdriveListing env.driveFiles)
  let r := runDeletes env.driveDeleteOk (sel.map DriveFile.id)
  (Event.purgeCall :: r.1.map Event.destDelete, r.2)

/-- Backup destination selected by the required `--target` CLI flag. -/
inductive Target
  | s3
  | gdrive
deriving DecidableEq, Repr

/-- Upload dispatch of the `__main__` driver. -/
def uploadFor (env : Env) (t : Target) (path : Option String) :
    Except PyErr (Bool × List Event) :=
  match t with
  | .s3 => s3Upload env path
  | .gdrive => gdriveUpload env path

/-- Purge dispatch of the `__main__` driver. -/
def purgeFor (env : Env) (t : Target) : List Event × Option PyErr :=
  match t with
  | .s3 => s3Purge env
  | .gdrive => gdrivePurge env

/-- Final state of one run: the event trace, the `upload_status` flag, whether
`os.remove` ran on the local artifact, and the uncaught exception, if any. -/
structure RunResult where
  trace : List Event
  uploadStatus : Bool
  localRemoved : Bool
  crashed : Option PyErr
deriving DecidableEq, Repr

/-- The `__main__` driver: `run_backup()`, then `upload(backup_filename)`
followed unconditionally by `purge()` (purge is skipped only when upload
raises), then `os.remove(backup_filename)` exactly when `upload_status` is
true and no exception has escaped. -/
def driver (env : Env) (t : Target) : RunResult :=
  let path := (runBackup env).1
  let pre := (runBackup env).2
  let tail : List Event × Bool × Bool × Option PyErr :=
    match uploadFor env t path with
    | .error e => ([], false, false, some e)
    | .ok (st, upEvents) =>
      let pr := purgeFor env t
      match pr.2 with
      | some e => (upEvents ++ pr.1, st, false, some e)
      | none =>
        if st then
          (upEvents ++ pr.1 ++ [Event.localRemove (path.getD "")], st, true, none)
        else
          (upEvents ++ pr.1, st, false, none)
  { trace := pre ++ Event.uploadCall path :: tail.1,
    uploadStatus := tail.2.1,
    localRemoved := tail.2.2.1,
    crashed := tail.2.2.2 }

/-- Digits of a decimal numeral, most significant first. -/
def digitsToNat : List Char → Option Nat
  | [] => none
  | cs => cs.foldlM (fun acc c => if c.isDigit then some (acc * 10 + (c.toNat - 48)) else none) 0

/-- Model of line 61, `MAX_BACKUP_FILES = int(os.getenv("MAX_BACKUP_FILES"))`:
Python `int()` on the raw string — an optional sign followed by digits
(whitespace/underscore forms omitted; they do not matter here).  No further
validation is performed: the source never checks the value's sign. -/
def loadMaxBackupFiles (raw : String) : Except PyErr Int :=
  match raw.toList with
  | '-' :: rest =>
    match digitsToNat rest with
    | some n => .ok (-(n : Int))
    | none => .error .valueError
  | '+' :: rest =>
    match digitsToNat rest with
    | some n => .ok (n : Int)
    | none => .error .valueError
  | cs =>
    match digitsToNat cs with
    | some n => .ok (n : Int)
    | none => .error .valueError

/-! Lemmas about the filename matcher. -/

theorem chompLit_append (p rest : List Char) : chompLit p (p ++ rest) = some rest := by
  induction p with
  | nil => rfl
  | cons c cs ih => simp [chompLit, ih]

theorem chompDigits_append (n : Nat) (ds rest : List Char)
    (hall : ds.all Char.isDigit = true) (hlen : ds.length = n) :
    chompDigits n (ds ++ rest) = some rest := by
  subst hlen
  induction ds with
  | nil => rfl
  | cons c cs ih =>
    simp only [List.all_cons, Bool.and_eq_true] at hall
    simpa [chompDigits, hall.1] using ih hall.2

theorem chompD12Dot_append (m rest : List Char)
    (hall : m.all Char.isDigit = true) (hlen : m.length = 1 ∨ m.length = 2) :
    chompD12Dot (m ++ '.' :: rest) = some rest := by
  have hdot : ('.' : Char).isDigit = false := by decide
  rcases hlen with h1 | h2
  · obtain ⟨a, rfl⟩ := List.length_eq_one.mp h1
    simp only [List.all_cons, List.all_nil, Bool.and_true] at hall
    simp [chompD12Dot, chompDigits, chompLit, hall, hdot]
  · obtain ⟨a, b, rfl⟩ := List.length_eq_two.mp h2
    simp only [List.all_cons, List.all_nil, Bool.and_true, Bool.and_eq_true] at hall
    simp [chompD12Dot, chompDigits, chompLit, hall.1, hall.2, hdot]

theorem matchFrom_accepts (user m d y hh mm ss extra : List Char)
    (hm : m.all Char.isDigit = true) (hmlen : m.length = 1 ∨ m.length = 2)
    (hd : d.all Char.isDigit = true) (hdlen : d.length = 1 ∨ d.length = 2)
    (hy : y.all Char.isDigit = true) (hylen : y.length = 4)
    (hhh : hh.all Char.isDigit = true) (hhhlen : hh.length = 2)
    (hmm : mm.all Char.isDigit = true) (hmmlen : mm.length = 2)
    (hss : ss.all Char.isDigit = true) (hsslen : ss.length = 2) :
    matchFrom user
      ("backup-".toList ++ (m ++ '.' :: (d ++ '.' :: (y ++ '_' :: (hh ++ '-' :: (mm ++ '-' ::
        (ss ++ '_' :: (user ++ (".tar.gz".toList ++ extra)))))))))
      = some extra := by
  unfold matchFrom
  rw [chompLit_append]
  simp only [Option.bind_eq_bind, Option.some_bind]
  rw [chompD12Dot_append m _ hm hmlen]
  simp only [Option.some_bind]
  rw [chompD12Dot_append d _ hd hdlen]
  simp only [Option.some_bind]
  rw [chompDigits_append 4 y _ hy hylen]
  simp only [Option.some_bind]
  rw [show ('_' :: (hh ++ '-' :: (mm ++ '-' :: (ss ++ '_' :: (user ++ (".tar.gz".toList ++ extra))))))
        = ['_'] ++ (hh ++ '-' :: (mm ++ '-' :: (ss ++ '_' :: (user ++ (".tar.gz".toList ++ extra)))))
      from rfl,
     chompLit_append]
  simp only [Option.some_bind]
  rw [chompDigits_append 2 hh _ hhh hhhlen]
  simp only [Option.some_bind]
  rw [show ('-' :: (mm ++ '-' :: (ss ++ '_' :: (user ++ (".tar.gz".toList ++ extra)))))
        = ['-'] ++ (mm ++ '-' :: (ss ++ '_' :: (user ++ (".tar.gz".toList ++ extra)))) from rfl,
     chompLit_append]
  simp only [Option.some_bind]
  rw [chompDigits_append 2 mm _ hmm hmmlen]
  simp only [Option.some_bind]
  rw [show ('-' :: (ss ++ '_' :: (user ++ (".tar.gz".toList ++ extra))))
        = ['-'] ++ (ss ++ '_' :: (user ++ (".tar.gz".toList ++ extra))) from rfl,
     chompLit_append]
  simp only [Option.some_bind]
  rw [chompDigits_append 2 ss _ hss hsslen]
  simp only [Option.some_bind]
  rw [show ('_' :: (user ++ (".tar.gz".toList ++ extra)))
        = ['_'] ++ (user ++ (".tar.gz".toList ++ extra)) from rfl,
     chompLit_append]
  simp only [Option.some_bind]
  rw [chompLit_append]
  simp only [Option.some_bind]
  rw [chompLit_append]

/-- C10: the artifact locator's filename matching is prefix-based, not
whole-name: any filename that starts with a string of the shape
`backup-<M>.<D>.<YYYY>_<HH>-<MM>-<SS>_<account>.tar.gz` and continues with
arbitrary extra characters (e.g. a trailing ".partial") is accepted by the
regex and hence by `__get_backup_file`; the terminal ".tar.gz" is not enforced
as the end of the name. -/
theorem c10_locator_accepts_extended_names (user m d y hh mm ss extra : String)
    (hm : m.data.all Char.isDigit = true) (hmlen : m.data.length = 1 ∨ m.data.length = 2)
    (hd : d.data.all Char.isDigit = true) (hdlen : d.data.length = 1 ∨ d.data.length = 2)
    (hy : y.data.all Char.isDigit = true) (hylen : y.data.length = 4)
    (hhh : hh.data.all Char.isDigit = true) (hhhlen : hh.data.length = 2)
    (hmm : mm.data.all Char.isDigit = true) (hmmlen : mm.data.length = 2)
    (hss : ss.data.all Char.isDigit = true) (hsslen : ss.data.length = 2) :
    backupNameMatch user
      ("backup-" ++ m ++ "." ++ d ++ "." ++ y ++ "_" ++ hh ++ "-" ++ mm ++ "-" ++ ss
        ++ "_" ++ user ++ ".tar.gz" ++ extra) = true ∧
    getBackupFile user
        ["backup-" ++ m ++ "." ++ d ++ "." ++ y ++ "_" ++ hh ++ "-" ++ mm ++ "-" ++ ss
          ++ "_" ++ user ++ ".tar.gz" ++ extra]
      = some ("/home/" ++ user ++ "/"
          ++ ("backup-" ++ m ++ "." ++ d ++ "." ++ y ++ "_" ++ hh ++ "-" ++ mm ++ "-" ++ ss
            ++ "_" ++ user ++ ".tar.gz" ++ extra)) := by
  have hdotc : ("." : String).data = ['.'] := rfl
  have hunder : ("_" : String).data = ['_'] := rfl
  have hdash : ("-" : String).data = ['-'] := rfl
  have hdata : ("backup-" ++ m ++ "." ++ d ++ "." ++ y ++ "_" ++ hh ++ "-" ++ mm ++ "-" ++ ss
      ++ "_" ++ user ++ ".tar.gz" ++ extra).data
      = "backup-".toList ++ (m.data ++ '.' :: (d.data ++ '.' :: (y.data ++ '_' ::
        (hh.data ++ '-' :: (mm.data ++ '-' :: (ss.data ++ '_' ::
          (user.data ++ (".tar.gz".toList ++ extra.data)))))))) := by
    simp [String.data_append, String.toList, hdotc, hunder, hdash, List.append_assoc]
  have hmatch : backupNameMatch user
      ("backup-" ++ m ++ "." ++ d ++ "." ++ y ++ "_" ++ hh ++ "-" ++ mm ++ "-" ++ ss
        ++ "_" ++ user ++ ".tar.gz" ++ extra) = true := by
    show (matchFrom user.data _).isSome = true
    rw [show (String.toList _) = ("backup-" ++ m ++ "." ++ d ++ "." ++ y ++ "_" ++ hh ++ "-"
          ++ mm ++ "-" ++ ss ++ "_" ++ user ++ ".tar.gz" ++ extra).data from rfl,
        hdata,
        matchFrom_accepts user.data m.data d.data y.data hh.data mm.data ss.data extra.data
          hm hmlen hd hdlen hy hylen hhh hhhlen hmm hmmlen hss hsslen]
    rfl
  exact ⟨hmatch, by simp [getBackupFile, List.find?, hmatch]⟩

/-- Witness for C10 at the concrete name of the spec's scenario A with a
trailing ".partial". -/
theorem c10_locator_accepts_extended_names_witness :
    backupNameMatch "myuser"
      ("backup-" ++ "8" ++ "." ++ "17" ++ "." ++ "2024" ++ "_" ++ "17" ++ "-" ++ "46" ++ "-"
        ++ "55" ++ "_" ++ "myuser" ++ ".tar.gz" ++ ".partial") = true :=
  (c10_locator_accepts_extended_names "myuser" "8" "17" "2024" "17" "46" "55" ".partial"
    (by decide) (by decide) (by decide) (by decide) (by decide) (by decide) (by decide)
    (by decide) (by decide) (by decide) (by decide) (by decide)).1

/-- C4 counterexample: on a legitimate oldest-to-newest S3 listing with tied
last-modified timestamps, the deleted entry is not strictly older than the
retained one, so the claim's "each strictly older (by the ordering field) than
every retained entry" fails as stated. -/
theorem c4_retention_strict_cex :
    List.Sorted s3Le [⟨"a", 5⟩, ⟨"b", 5⟩] ∧
    s3FilesToDelete 1 [⟨"a", 5⟩, ⟨"b", 5⟩] = [⟨"a", 5⟩] ∧
    ¬ (∀ x ∈ s3FilesToDelete 1 [⟨"a", 5⟩, ⟨"b", 5⟩],
        ∀ y ∈ [(⟨"b", 5⟩ : S3Object)], x.lastModified < y.lastModified) := by
  refine ⟨by decide, by decide, by decide⟩

/-- C4 (amended): on an oldest-to-newest listing, retention selects nothing
when the count is within `max_kept`, and otherwise selects exactly the
`len - max_kept` oldest entries, each no newer (non-strictly, because of
possible timestamp ties) than every retained entry; the S3 selection keeps
them oldest-first, the Drive selection (whose listing is newest-first) keeps
them newest-first. -/
theorem c4_retention_selection (k : Nat) (asc : List S3Object) (desc : List DriveFile)
    (hasc : List.Sorted s3Le asc) (hdesc : List.Sorted driveDescLe desc) :
    ((asc.length ≤ k → s3FilesToDelete (k : Int) asc = []) ∧
     (k < asc.length →
        s3FilesToDelete (k : Int) asc = asc.take (asc.length - k) ∧
        (s3FilesToDelete (k : Int) asc).length = asc.length - k ∧
        ∀ x ∈ s3FilesToDelete (k : Int) asc, ∀ y ∈ asc.drop (asc.length - k),
          x.lastModified ≤ y.lastModified)) ∧
    ((desc.length ≤ k → gdriveFilesToDelete (k : Int) desc = []) ∧
     (k < desc.length →
        gdriveFilesToDelete (k : Int) desc = desc.drop k ∧
        (gdriveFilesToDelete (k : Int) desc).length = desc.length - k ∧
        ∀ x ∈ gdriveFilesToDelete (k : Int) desc, ∀ y ∈ desc.take k,
          x.createdTime ≤ y.createdTime)) := by
  have hsorteq : s3SortedListing asc = asc := hasc.insertionSort_eq
  refine ⟨⟨fun hle => ?_, fun hlt => ?_⟩, ⟨fun hle => ?_, fun hlt => ?_⟩⟩
  · have hc : ¬ ((s3SortedListing asc).length : Int) > (k : Int) := by
      rw [hsorteq]; omega
    simp [s3FilesToDelete, hc]
  · have heq : s3FilesToDelete (k : Int) asc = asc.take (asc.length - k) := by
      unfold s3FilesToDelete
      rw [hsorteq]
      rw [if_pos (show ((asc.length : Int) > (k : Int)) by omega)]
      unfold pyTake
      rw [if_pos (show ((0 : Int) ≤ (asc.length : Int) - (k : Int)) by omega)]
      congr 1
      omega
    refine ⟨heq, ?_, ?_⟩
    · rw [heq, List.length_take]
      omega
    · have hpair : List.Pairwise s3Le (asc.take (asc.length - k) ++ asc.drop (asc.length - k)) := by
        rw [List.take_append_drop]
        exact hasc
      have hcross := (List.pairwise_append.mp hpair).2.2
      intro x hx y hy
      exact hcross x (by rwa [heq] at hx) y hy
  · have hc : ¬ ((desc.length : Int) > (k : Int)) := by omega
    simp [gdriveFilesToDelete, hc]
  · have hc : ((desc.length : Int) > (k : Int)) := by omega
    have heq : gdriveFilesToDelete (k : Int) desc = desc.drop k := by
      simp [gdriveFilesToDelete, hc, pyDrop]
    refine ⟨heq, ?_, ?_⟩
    · rw [heq, List.length_drop]
    · have hpair : List.Pairwise driveDescLe (desc.take k ++ desc.drop k) := by
        rw [List.take_append_drop]
        exact hdesc
      have hcross := (List.pairwise_append.mp hpair).2.2
      intro x hx y hy
      exact hcross y hy x (by rwa [heq] at hx)

/-- Witness for C4 at a concrete two-element listing per backend with
`max_kept = 1`. -/
theorem c4_retention_selection_witness :
    s3FilesToDelete ((1 : Nat) : Int) [⟨"a", 1⟩, ⟨"b", 2⟩] = [⟨"a", 1⟩] ∧
    gdriveFilesToDelete ((1 : Nat) : Int) [⟨"i2", "n", 2⟩, ⟨"i1", "o", 1⟩] = [⟨"i1", "o", 1⟩] := by
  have h := c4_retention_selection 1 [⟨"a", 1⟩, ⟨"b", 2⟩] [⟨"i2", "n", 2⟩, ⟨"i1", "o", 1⟩]
    (by decide) (by decide)
  exact ⟨((h.1.2 (by decide)).1).trans (by decide), ((h.2.2 (by decide)).1).trans (by decide)⟩

/-- C5 counterexample: the startup config load accepts a retention count of 0
(and of -3) without any error, and purge with `max_kept = 0` deletes every
artifact at the destination, on both backends. -/
theorem c5_zero_max_kept_cex :
    loadMaxBackupFiles "0" = .ok 0 ∧
    loadMaxBackupFiles "-3" = .ok (-3) ∧
    s3FilesToDelete 0 [⟨"a", 1⟩, ⟨"b", 2⟩] = [⟨"a", 1⟩, ⟨"b", 2⟩] ∧
    gdriveFilesToDelete 0 [⟨"i2", "n", 2⟩, ⟨"i1", "o", 1⟩] = [⟨"i2", "n", 2⟩, ⟨"i1", "o", 1⟩] := by
  decide

/-- C5 (amended): a non-positive retention count is not rejected at startup —
the configuration line only parses the integer, with no sign check — and purge
with `max_kept = 0` is exactly "delete every artifact at the destination" on
both backends. -/
theorem c5_no_validation_delete_all :
    loadMaxBackupFiles "0" = .ok 0 ∧ loadMaxBackupFiles "-3" = .ok (-3) ∧
    (∀ files : List S3Object, s3FilesToDelete 0 files = s3SortedListing files) ∧
    (∀ listing : List DriveFile, gdriveFilesToDelete 0 listing = listing) := by
  refine ⟨by decide, by decide, fun files => ?_, fun listing => ?_⟩
  · by_cases h : ((s3SortedListing files).length : Int) > 0
    · simp only [s3FilesToDelete, h, if_pos, Int.sub_zero, pyTake]
      rw [if_pos (by omega), Int.toNat_ofNat, List.take_length]
    · have hnil : s3SortedListing files = [] := by
        rw [← List.length_eq_zero]
        omega
      simp [s3FilesToDelete, h, hnil]
  · by_cases h : ((listing.length : Int) : Int) > 0
    · simp [gdriveFilesToDelete, h, pyDrop]
    · have hnil : listing = [] := by
        rw [← List.length_eq_zero]
        omega
      simp [gdriveFilesToDelete, hnil]

/-- C9 counterexample: on a Drive listing (newest first, as `orderBy=
"createdTime desc"` returns it) of three files with `max_kept = 1`, the excess
is deleted in the order newest-then-oldest, not in the claimed oldest-to-newest
relative order. -/
theorem c9_gdrive_order_cex :
    List.Sorted driveDescLe [⟨"idc", "c", 3⟩, ⟨"idb", "b", 2⟩, ⟨"ida", "a", 1⟩] ∧
    gdriveFilesToDelete 1 [⟨"idc", "c", 3⟩, ⟨"idb", "b", 2⟩, ⟨"ida", "a", 1⟩]
      = [⟨"idb", "b", 2⟩, ⟨"ida", "a", 1⟩] ∧
    gdriveFilesToDelete 1 [⟨"idc", "c", 3⟩, ⟨"idb", "b", 2⟩, ⟨"ida", "a", 1⟩]
      ≠ [⟨"ida", "a", 1⟩, ⟨"idb", "b", 2⟩] := by
  refine ⟨by decide, by decide, by decide⟩

/-- C9 (amended): the S3 purge deletes the excess oldest-first (its delete
sequence is ascending by last-modified), while the Drive purge deletes the
excess newest-first (its delete sequence is descending by creation time — the
reverse of the relative order the claim states). -/
theorem c9_delete_order (maxKept : Int) (files : List S3Object) (desc : List DriveFile)
    (hdesc : List.Sorted driveDescLe desc) :
    List.Sorted s3Le (s3FilesToDelete maxKept files) ∧
    List.Sorted driveDescLe (gdriveFilesToDelete maxKept desc) := by
  constructor
  · unfold s3FilesToDelete
    split
    · unfold pyTake
      split
      · exact List.Pairwise.sublist (List.take_sublist _ _) (List.sorted_insertionSort s3Le files)
      · exact List.Pairwise.sublist (List.take_sublist _ _) (List.sorted_insertionSort s3Le files)
    · exact List.sorted_nil
  · unfold gdriveFilesToDelete
    split
    · unfold pyDrop
      split
      · exact List.Pairwise.sublist (List.drop_sublist _ _) hdesc
      · exact List.Pairwise.sublist (List.drop_sublist _ _) hdesc
    · exact List.sorted_nil

/-- Witness for C9 at a concrete listing per backend with `max_kept = 1`. -/
theorem c9_delete_order_witness :
    List.Sorted s3Le (s3FilesToDelete 1 [⟨"b", 2⟩, ⟨"a", 1⟩, ⟨"c", 3⟩]) ∧
    List.Sorted driveDescLe
      (gdriveFilesToDelete 1 [⟨"idc", "c", 3⟩, ⟨"idb", "b", 2⟩, ⟨"ida", "a", 1⟩]) :=
  c9_delete_order 1 [⟨"b", 2⟩, ⟨"a", 1⟩, ⟨"c", 3⟩]
    [⟨"idc", "c", 3⟩, ⟨"idb", "b", 2⟩, ⟨"ida", "a", 1⟩] (by decide)

/-! Concrete environments for counterexamples and witnesses. -/

/-- A benign run: trigger accepted, artifact present, upload and all deletions
succeed, two artifacts at each destination, `MAX_BACKUP_FILES = 1`. -/
def sampleEnv : Env :=
  { username := "myuser"
    triggerHttpStatus := 200
    triggerApiStatus := 1
    checkDelay := 300
    homeDirEntries := ["backup-8.17.2024_17-46-55_myuser.tar.gz"]
    existingPaths := ["/home/myuser/backup-8.17.2024_17-46-55_myuser.tar.gz"]
    keyPref := "backups/"
    putOk := true
    mimeGuess := fun _ => none
    s3Objects := [⟨"backups/old", 1⟩, ⟨"backups/new", 2⟩]
    deleteOk := fun _ => true
    driveFiles := [⟨"id1", "old", 1⟩, ⟨"id2", "new", 2⟩]
    driveDeleteOk := fun _ => true
    maxBackupFiles := 1 }

/-- Benign run except that the destination put call fails (transport error). -/
def envUploadFails : Env := { sampleEnv with putOk := false }

/-- Benign run except that the located artifact is missing from the local
filesystem at upload time. -/
def envLocalFileGone : Env := { sampleEnv with existingPaths := [] }

/-- Benign run except that the trigger returns HTTP 500. -/
def envTriggerRejected : Env := { sampleEnv with triggerHttpStatus := 500 }

/-- Benign run except that no home-directory entry matches the backup
pattern. -/
def envNoArtifact : Env := { sampleEnv with homeDirEntries := ["readme.txt"] }

/-- Benign run except that `MAX_BACKUP_FILES = 0` and every delete call
raises. -/
def envDeleteRaises : Env :=
  { sampleEnv with maxBackupFiles := 0, deleteOk := fun _ => false }

/-- Three S3 artifacts with `MAX_BACKUP_FILES = 1`; the delete call on the
oldest key raises. -/
def envFirstDeleteRaises : Env :=
  { sampleEnv with
      s3Objects := [⟨"backups/o1", 1⟩, ⟨"backups/o2", 2⟩, ⟨"backups/n", 3⟩]
      deleteOk := fun k => k != "backups/o1" }

/-! Claim theorems about the driver. -/

theorem purgeCall_mem_purgeFor (env : Env) (t : Target) :
    Event.purgeCall ∈ (purgeFor env t).1 := by
  cases t <;> simp [purgeFor, s3Purge, gdrivePurge]

/-- C1 counterexample: a run in which upload returns failure (the destination
put call errors) still invokes purge and still performs a remote deletion, so
"purge runs only when upload succeeded" is false of the code. -/
theorem c1_purge_after_failed_upload_cex :
    (driver envUploadFails .s3).uploadStatus = false ∧
    Event.purgeCall ∈ (driver envUploadFails .s3).trace ∧
    Event.destDelete "backups/old" ∈ (driver envUploadFails .s3).trace := by
  decide

/-- C1 (amended): the driver invokes purge unconditionally after upload —
whenever the upload call returns at all (success or failure), the purge phase
runs; only an upload that raises (None path) skips it. -/
theorem c1_purge_unconditional (env : Env) (t : Target) (st : Bool) (evs : List Event)
    (h : uploadFor env t ((runBackup env).1) = .ok (st, evs)) :
    Event.purgeCall ∈ (driver env t).trace := by
  have hp := purgeCall_mem_purgeFor env t
  cases hperr : (purgeFor env t).2 with
  | none => cases st <;> simp [driver, h, hperr, List.mem_append, hp]
  | some e => simp [driver, h, hperr, List.mem_append, hp]

/-- Witness for C1 (amended): upload returns failure and purge is still
invoked. -/
theorem c1_purge_unconditional_witness :
    Event.purgeCall ∈ (driver envLocalFileGone .s3).trace :=
  c1_purge_unconditional envLocalFileGone .s3 false [] (by decide)

/-- C2 counterexample: with the trigger rejected (HTTP 500), the run does not
abort — wait, locate, upload, destination put, purge and the remote deletion
all still occur and the run even ends with a successful upload. -/
theorem c2_trigger_failure_cex :
    initiateFullBackup envTriggerRejected.triggerHttpStatus envTriggerRejected.triggerApiStatus
      = .rejectedHttp 500 ∧
    (driver envTriggerRejected .s3).trace =
      [Event.triggerCall, Event.waitDelay 300, Event.locateScan,
       Event.uploadCall (some "/home/myuser/backup-8.17.2024_17-46-55_myuser.tar.gz"),
       Event.destPut "backups/backup-8.17.2024_17-46-55_myuser.tar.gz",
       Event.purgeCall, Event.destDelete "backups/old",
       Event.localRemove "/home/myuser/backup-8.17.2024_17-46-55_myuser.tar.gz"] ∧
    (driver envTriggerRejected .s3).uploadStatus = true := by
  decide

/-- C2 (amended): a trigger response without the accepted signal is only
logged: `__initiate_full_backup` returns None on every branch, so the run is
identical to the accepted-trigger run, and the wait, locate and upload phases
all still execute. -/
theorem c2_trigger_failure_ignored (env : Env) (t : Target)
    (_h : initiateFullBackup env.triggerHttpStatus env.triggerApiStatus ≠ .accepted) :
    driver env t = driver { env with triggerHttpStatus := 200, triggerApiStatus := 1 } t ∧
    Event.waitDelay env.checkDelay ∈ (driver env t).trace ∧
    Event.locateScan ∈ (driver env t).trace ∧
    Event.uploadCall ((runBackup env).1) ∈ (driver env t).trace := by
  refine ⟨rfl, ?_, ?_, ?_⟩ <;>
    simp [driver, runBackup, List.mem_append]

/-- Witness for C2 (amended) at the HTTP-500 environment. -/
theorem c2_trigger_failure_ignored_witness :
    Event.waitDelay 300 ∈ (driver envTriggerRejected .s3).trace :=
  (c2_trigger_failure_ignored envTriggerRejected .s3 (by decide)).2.1

/-- C3 counterexample: when no file matches the pattern, the run does not
abort with a clean ArtifactNotFound outcome: the driver still invokes the
backend upload with the None filename, which dies with an uncaught TypeError
(from `os.path.exists(None)`). -/
theorem c3_no_artifact_cex :
    (runBackup envNoArtifact).1 = none ∧
    Event.uploadCall none ∈ (driver envNoArtifact .s3).trace ∧
    (driver envNoArtifact .s3).crashed = some .typeError := by
  decide

/-- C3 (amended): when no file matches after the wait, `run_backup` returns
None and the driver still constructs the backend and calls upload with the
None path; that call raises TypeError inside the existence check, so the run
crashes — but before any destination-side call: no put, no create, no purge,
no deletion, and no local removal. -/
theorem c3_no_artifact_crashes_in_upload (env : Env) (t : Target)
    (h : (runBackup env).1 = none) :
    (driver env t).trace = (runBackup env).2 ++ [Event.uploadCall none] ∧
    (driver env t).crashed = some .typeError ∧
    Event.purgeCall ∉ (driver env t).trace ∧
    (∀ k, Event.destPut k ∉ (driver env t).trace) ∧
    (∀ n m, Event.destCreateFile n m ∉ (driver env t).trace) ∧
    (∀ k, Event.destDelete k ∉ (driver env t).trace) ∧
    (driver env t).localRemoved = false := by
  have hup : uploadFor env t ((runBackup env).1) = .error .typeError := by
    rw [h]
    cases t <;> rfl
  have h' : getBackupFile env.username env.homeDirEntries = none := h
  have hupn : uploadFor env t none = .error .typeError := by
    cases t <;> rfl
  refine ⟨?_, ?_, ?_, ?_, ?_, ?_, ?_⟩ <;>
    simp [driver, runBackup, hupn, h']

/-- Witness for C3 (amended) at the no-matching-entry environment. -/
theorem c3_no_artifact_crashes_in_upload_witness :
    (driver envNoArtifact .s3).crashed = some PyErr.typeError :=
  (c3_no_artifact_crashes_in_upload envNoArtifact .s3 (by decide)).2.1

/-- C6 counterexample: a run in which upload returned success but a purge
deletion then raised ends with the local artifact NOT removed, refuting the
"if" direction of "deleted if and only if the upload succeeded". -/
theorem c6_cleanup_cex :
    (driver envDeleteRaises .s3).uploadStatus = true ∧
    (driver envDeleteRaises .s3).localRemoved = false ∧
    (driver envDeleteRaises .s3).crashed = some (.apiError "backups/old") := by
  decide

/-- C6 (amended): the local artifact is never removed when upload did not
succeed; and in any run where no exception escapes, it is removed exactly when
upload succeeded.  (When a purge deletion raises after a successful upload,
the run crashes before cleanup and the file is retained.) -/
theorem c6_cleanup_iff_upload (env : Env) (t : Target) :
    ((driver env t).uploadStatus = false → (driver env t).localRemoved = false) ∧
    ((driver env t).crashed = none →
      ((driver env t).localRemoved = true ↔ (driver env t).uploadStatus = true)) := by
  cases hup : uploadFor env t ((runBackup env).1) with
  | error e => simp [driver, hup]
  | ok p =>
    obtain ⟨st, evs⟩ := p
    cases hperr : (purgeFor env t).2 with
    | none => cases st <;> simp [driver, hup, hperr]
    | some e => simp [driver, hup, hperr]

/-- Witness for C6 (amended) at the benign environment (crash-free run). -/
theorem c6_cleanup_iff_upload_witness :
    (driver sampleEnv .s3).localRemoved = true ↔ (driver sampleEnv .s3).uploadStatus = true :=
  (c6_cleanup_iff_upload sampleEnv .s3).2 (by decide)

/-- C7: for every path at which no local file exists, upload on either backend
returns failure — not an exception — and performs no destination-side call. -/
theorem c7_upload_missing_file (env : Env) (p : String) (h : p ∉ env.existingPaths) :
    s3Upload env (some p) = .ok (false, []) ∧
    gdriveUpload env (some p) = .ok (false, []) := by
  constructor <;> simp [s3Upload, gdriveUpload, h]

/-- Witness for C7 at a concrete missing path. -/
theorem c7_upload_missing_file_witness :
    s3Upload sampleEnv (some "/home/myuser/nope.tar.gz") = .ok (false, []) ∧
    gdriveUpload sampleEnv (some "/home/myuser/nope.tar.gz") = .ok (false, []) :=
  c7_upload_missing_file sampleEnv "/home/myuser/nope.tar.gz" (by decide)

/-- C8 counterexample: with two excess artifacts and the first delete call
raising, the second deletion is never attempted and the run crashes (so local
cleanup is skipped too) — the failure is not tolerated and the rest of the run
does not proceed. -/
theorem c8_delete_failure_cex :
    s3Purge envFirstDeleteRaises
      = ([Event.purgeCall, Event.destDelete "backups/o1"], some (.apiError "backups/o1")) ∧
    Event.destDelete "backups/o2" ∉ (driver envFirstDeleteRaises .s3).trace ∧
    (driver envFirstDeleteRaises .s3).crashed = some (.apiError "backups/o1") ∧
    (driver envFirstDeleteRaises .s3).localRemoved = false := by
  decide

/-- C8 (amended): there is no try/except around the per-file delete calls of
either purge implementation: the failing delete call is issued, the loop stops
there — later deletions are not attempted and nothing is retried — and the
exception escapes purge, so the run crashes and local cleanup never runs. -/
theorem c8_delete_failure_aborts :
    (∀ (ok : String → Bool) (done rest : List String) (bad : String),
       (∀ k ∈ done, ok k = true) → ok bad = false →
       runDeletes ok (done ++ bad :: rest) = (done ++ [bad], some (.apiError bad))) ∧
    (∀ (env : Env) (t : Target), (purgeFor env t).2.isSome = true →
       (driver env t).crashed.isSome = true ∧ (driver env t).localRemoved = false) := by
  constructor
  · intro ok done rest bad hdone hbad
    induction done with
    | nil => simp [runDeletes, hbad]
    | cons k ks ih =>
      have hk := hdone k (by simp)
      simp [runDeletes, hk, ih (fun x hx => hdone x (by simp [hx]))]
  · intro env t hp
    cases hup : uploadFor env t ((runBackup env).1) with
    | error e => simp [driver, hup]
    | ok p =>
      obtain ⟨st, evs⟩ := p
      cases hperr : (purgeFor env t).2 with
      | none => rw [hperr] at hp; simp at hp
      | some e => simp [driver, hup, hperr]

/-- Witness for C8 (amended): a concrete failing delete in the middle of the
queue stops the loop, and the crashed run at the first-delete-raises
environment skips cleanup. -/
theorem c8_delete_failure_aborts_witness :
    runDeletes (fun k => k != "b") (["a"] ++ "b" :: ["c"])
      = (["a"] ++ ["b"], some (.apiError "b")) ∧
    (driver envFirstDeleteRaises .s3).crashed.isSome = true ∧
    (driver envFirstDeleteRaises .s3).localRemoved = false :=
  ⟨c8_delete_failure_aborts.1 (fun k => k != "b") ["a"] ["c"] "b" (by decide) (by decide),
   c8_delete_failure_aborts.2 envFirstDeleteRaises .s3 (by decide)⟩

end CPanelBackupPlus
